import Mathlib

/-
Verification of the Automated Insight Engine repository
(scripts/generate_report.py and scripts/api_server.py).

The pipeline is embedded shallowly:
- a pandas DataFrame is a list of column names plus rows given as
  association lists from column name to an optional string cell
  (none models a missing value / NaN);
- each aggregate of run_report is a Lean function on this DataFrame type;
- the filesystem is a list of (path, content) pairs, and the effectful
  endpoints (upload, ingest) return a response together with the
  resulting filesystem;
- chart and document generation is modelled by the set of report file
  paths written, since the claims concern which artifacts exist, not
  image bytes.
-/

namespace InsightEngine

/-- A row of the dataset: an association list from column name to cell.
A cell of none models a pandas missing value (NaN). -/
abbrev Row := List (String × Option String)

/-- A pandas DataFrame: named columns plus rows. -/
structure DataFrame where
  cols : List String
  rows : List Row
deriving DecidableEq

/-- Cell access by column name; a key absent from the row, like a NaN cell,
reads as a missing value. -/
def cellVal : Row → String → Option String
  | [], _ => none
  | (k, v) :: rest, c => if k = c then v else cellVal rest c

/-- The column of cells named c, in row order (pandas df brackets c). -/
def colValues (df : DataFrame) (c : String) : List (Option String) :=
  df.rows.map (fun r => cellVal r c)

/-- Python str.strip: remove leading and trailing whitespace.
Used by the cleaning step df.columns assignment in run_report. -/
def pyStrip (s : String) : String :=
  String.mk (((s.toList.dropWhile Char.isWhitespace).reverse.dropWhile Char.isWhitespace).reverse)

/-- The cleaning step of run_report: strip whitespace from every column
name. Renaming a pandas column renames how its cells are addressed, so
row keys are renamed alike. -/
def stripCols (df : DataFrame) : DataFrame :=
  ⟨df.cols.map pyStrip, df.rows.map (fun r => r.map (fun kv => (pyStrip kv.1, kv.2)))⟩

/-- The distinct values of a list in order of first appearance
(the key set produced by pandas value counting). -/
def uniqueKeys {α : Type} [DecidableEq α] : List α → List α
  | [] => []
  | a :: as => a :: (uniqueKeys as).filter (fun b => b ≠ a)

/-- Number of occurrences of v in l. -/
def countEq {α : Type} [DecidableEq α] : List α → α → Nat
  | [], _ => 0
  | a :: as, v => (if a = v then 1 else 0) + countEq as v

/-- Each distinct value of l paired with its occurrence count. -/
def countOccs {α : Type} [DecidableEq α] (l : List α) : List (α × Nat) :=
  (uniqueKeys l).map (fun v => (v, countEq l v))

/-- Comparison by count, descending: a comes before b when the count of b
is at most the count of a. -/
def cntGe {α : Type} (a b : α × Nat) : Prop := b.2 ≤ a.2

instance {α : Type} : DecidableRel (@cntGe α) := fun a b => Nat.decLe b.2 a.2

instance {α : Type} : IsTotal (α × Nat) (@cntGe α) := ⟨fun a b => Nat.le_total b.2 a.2⟩

instance {α : Type} : IsTrans (α × Nat) (@cntGe α) := ⟨fun _ _ _ h h2 => Nat.le_trans h2 h⟩

/-- pandas Series.value_counts on an already non-missing list of values:
occurrence counts ordered by descending count. -/
def valueCounts {α : Type} [DecidableEq α] (l : List α) : List (α × Nat) :=
  List.insertionSort (@cntGe α) (countOccs l)

/-- Python split on the two-character delimiter comma-space, on character
lists: non-overlapping matches, left to right, empty pieces kept. -/
def splitCommaSpaceChars : List Char → List (List Char)
  | [] => [[]]
  | [c] => [[c]]
  | c :: d :: rest =>
    if c = ',' ∧ d = ' ' then
      [] :: splitCommaSpaceChars rest
    else
      match splitCommaSpaceChars (d :: rest) with
      | [] => [[c]]
      | p :: ps => (c :: p) :: ps

/-- Python str.split with the comma-space separator, as used by the
top-genres aggregate str.split of run_report. -/
def splitCommaSpace (s : String) : List String :=
  (splitCommaSpaceChars s.toList).map (fun l => String.mk l)

/-- Decimal value of a list of digit characters. -/
def digitsVal (l : List Char) : Nat :=
  l.foldl (fun acc c => acc * 10 + (c.toNat - 48)) 0

/-- The first maximal run of digits in a character list, if any: the
semantics of a regex search for one-or-more digits as a capture group. -/
def firstDigitRun : List Char → Option (List Char)
  | [] => none
  | c :: cs => if c.isDigit then some ((c :: cs).takeWhile Char.isDigit) else firstDigitRun cs

/-- pandas str.extract with the digit-group pattern used in run_report:
the first run of digits anywhere in the string, or a missing value. -/
def extractFirstNat (s : String) : Option Nat :=
  (firstDigitRun s.toList).map digitsVal

/-- Python astype str on a cell: a missing value prints as the string nan
(which contains no digit). -/
def pyStr : Option String → String
  | none => "nan"
  | some s => s

/-- The derived duration_num value of a row: run_report extracts the first
digit run of the duration text when the duration column exists, and an
all-missing column otherwise. -/
def durationNum (df : DataFrame) (r : Row) : Option Nat :=
  if "duration" ∈ df.cols then extractFirstNat (pyStr (cellVal r "duration")) else none

/-- Modelled from the spec for the refinement check of claim C5: the spec
says the derived duration is the LEADING integer of the text, that is the
run of digits at the very start of the string. -/
def leadingNatSpec (s : String) : Option Nat :=
  let ds := s.toList.takeWhile Char.isDigit
  if ds = [] then none else some (digitsVal ds)

/-- pd.to_numeric with coercion of errors, restricted to the
integer-formatted values release years take; unparsable text becomes a
missing value. (Decimal and scientific float forms, which no claim
exercises, are not modelled.) -/
def parseYearNum (s : String) : Option Int :=
  match (pyStrip s).toList with
  | '-' :: ds => if ds ≠ [] ∧ ds.all Char.isDigit then some (-(digitsVal ds : Int)) else none
  | '+' :: ds => if ds ≠ [] ∧ ds.all Char.isDigit then some ((digitsVal ds : Int)) else none
  | ds => if ds ≠ [] ∧ ds.all Char.isDigit then some ((digitsVal ds : Int)) else none

/-- The genre occurrences of the listed_in column: drop missing cells,
split each value on comma-space, and collect across rows
(the dropna, str.split, stack chain of run_report). -/
def genreValues (df : DataFrame) : List String :=
  ((colValues df "listed_in").filterMap id).flatMap splitCommaSpace

/-- The top-genres aggregate: value counts of the split genre values,
first ten entries; an empty series when the column is absent. -/
def top_genres (df : DataFrame) : List (String × Nat) :=
  if "listed_in" ∈ df.cols then (valueCounts (genreValues df)).take 10 else []

/-- The top-directors aggregate: value counts of the non-missing director
cells, first ten entries; an empty series when the column is absent. -/
def top_directors (df : DataFrame) : List (String × Nat) :=
  if "director" ∈ df.cols then (valueCounts ((colValues df "director").filterMap id)).take 10 else []

/-- The non-missing rating cells (value_counts drops missing values
before counting). -/
def ratingVals (df : DataFrame) : List String :=
  if "rating" ∈ df.cols then (colValues df "rating").filterMap id else []

/-- The ratings-distribution aggregate of run_report. -/
def rating_counts (df : DataFrame) : List (String × Nat) :=
  valueCounts (ratingVals df)

/-- The numeric release years: coercion of the release_year column with
missing or unparsable cells dropped by value counting. -/
def yearVals (df : DataFrame) : List Int :=
  (colValues df "release_year").filterMap (fun c => c.bind parseYearNum)

/-- Comparison of year keys, ascending (the sort_index call). -/
def yearLe (a b : Int × Nat) : Prop := a.1 ≤ b.1

instance : DecidableRel yearLe := fun a b => Int.decLe a.1 b.1

/-- The titles-per-year aggregate: counts of rows per numeric year,
ordered ascending by year. -/
def per_year (df : DataFrame) : List (Int × Nat) :=
  if "release_year" ∈ df.cols then List.insertionSort yearLe (countOccs (yearVals df)) else []

/-- The non-missing type cells. -/
def typeVals (df : DataFrame) : List String :=
  (colValues df "type").filterMap id

/-- The type-distribution aggregate of run_report. -/
def type_counts (df : DataFrame) : List (String × Nat) :=
  if "type" ∈ df.cols then valueCounts (typeVals df) else []

/-- The average-duration-by-type aggregate: drop rows with a missing
derived duration, group by the type cell (grouping drops rows whose type
is missing), and take the mean duration per group. The derived
duration_num column always exists after feature preparation, so the
guard of the source reduces to the type column being present. Group keys
are kept in first-appearance order; the ascending key sort of pandas
groupby does not affect any claim. -/
def avg_duration (df : DataFrame) : List (String × Rat) :=
  if "type" ∈ df.cols then
    let pairs := df.rows.filterMap (fun r =>
      match durationNum df r, cellVal r "type" with
      | some d, some t => some (t, (d : Rat))
      | _, _ => none)
    (uniqueKeys (pairs.map Prod.fst)).map (fun t =>
      let ds := (pairs.filter (fun p => p.1 = t)).map Prod.snd
      (t, ds.sum / (ds.length : Rat)))
  else []

/-- Path of a chart or document artifact inside the reports directory. -/
def reportsPath (f : String) : String := "reports/" ++ f

/-- Path of the generated PDF document. -/
def pdf_path : String := reportsPath "netflix_report.pdf"

/-- Path of the generated slide deck. -/
def ppt_path : String := reportsPath "netflix_report.pptx"

/-- The plots mapping built by run_report: one entry per aggregate whose
source column is present and whose result is non-empty, keyed by metric
name and holding the saved image path, in the order of the source. -/
def plot_files (df : DataFrame) : List (String × String) :=
  (if "listed_in" ∈ df.cols ∧ top_genres df ≠ [] then
    [("top_genres", reportsPath "top_genres.png")] else [])
  ++ (if "director" ∈ df.cols ∧ top_directors df ≠ [] then
    [("top_directors", reportsPath "top_directors.png")] else [])
  ++ (if "rating" ∈ df.cols ∧ rating_counts df ≠ [] then
    [("rating_distribution", reportsPath "rating_distribution.png")] else [])
  ++ (if "release_year" ∈ df.cols ∧ per_year df ≠ [] then
    [("titles_per_year", reportsPath "titles_per_year.png")] else [])
  ++ (if "type" ∈ df.cols ∧ type_counts df ≠ [] then
    [("type_count", reportsPath "type_count.png")] else [])
  ++ (if "type" ∈ df.cols ∧ avg_duration df ≠ [] then
    [("avg_movie_duration", reportsPath "avg_movie_duration.png")] else [])

/-- The dictionary run_report returns. -/
structure Bundle where
  csvPath : String
  pdfFile : Option String
  pptFile : Option String
  aiSummary : String
  plots : List (String × String)
deriving DecidableEq

/-- The part of run_report after the CSV is loaded: cleaning, aggregation,
chart generation, the AI summary stage, and optional document assembly.
The aiOutcome argument abstracts the external text-generation call: none
models a disabled client or any failure of the call (the except branch),
some s models a response whose message content is s (the source strips
it). Returns the bundle plus the list of report file paths written. -/
def run_report_core (csvPath : String) (df0 : DataFrame) (aiOutcome : Option String)
    (generate_files : Bool) : Bundle × List String :=
  let df := stripCols df0
  let plots := plot_files df
  let aiSummary := match aiOutcome with
    | some s => pyStrip s
    | none => ""
  let chartWrites := plots.map Prod.snd
  if generate_files then
    (⟨csvPath, some pdf_path, some ppt_path, aiSummary, plots⟩,
      chartWrites ++ [pdf_path, ppt_path])
  else
    (⟨csvPath, none, none, aiSummary, plots⟩, chartWrites)

/-- Path of the current-dataset slot inside the data directory. -/
def currentDatasetPath : String := "data/current_dataset.csv"

/-- Path of the bundled default dataset. -/
def defaultDatasetPath : String := "data/netflix_titles.csv"

/-- Step one of run_report: decide which CSV to use. An explicit path is
taken as is; otherwise the current dataset when that file exists,
otherwise the bundled default. -/
def resolveCsv (csvPath : Option String) (existing : List String) : String :=
  match csvPath with
  | some p => p
  | none => if currentDatasetPath ∈ existing then currentDatasetPath else defaultDatasetPath

/-- Modelled from the spec for the refinement check of claim C4: the spec
resolution order takes the explicit path only when it is given AND
exists, otherwise falls back to the current dataset, then the default. -/
def resolveCsvSpec (csvPath : Option String) (existing : List String) : String :=
  match csvPath with
  | some p =>
    if p ∈ existing then p
    else if currentDatasetPath ∈ existing then currentDatasetPath else defaultDatasetPath
  | none => if currentDatasetPath ∈ existing then currentDatasetPath else defaultDatasetPath

/-- run_report: resolve the CSV path against the set of existing files,
fail with the not-found error when the resolved path does not exist,
otherwise load (the load argument abstracts pd.read_csv) and run the
rest of the pipeline. -/
def run_report (csvPath : Option String) (existing : List String)
    (load : String → DataFrame) (aiOutcome : Option String)
    (generate_files : Bool) : Except String (Bundle × List String) :=
  let p := resolveCsv csvPath existing
  if p ∈ existing then .ok (run_report_core p (load p) aiOutcome generate_files)
  else .error ("CSV file not found: " ++ p)

/-- The analyze endpoint body: the full pipeline with document generation
disabled. (The surrounding handler only repackages the result or wraps an
exception into a server error.) -/
def analyze (source : Option String) (existing : List String)
    (load : String → DataFrame) (aiOutcome : Option String) :
    Except String (Bundle × List String) :=
  run_report source existing load aiOutcome false

/-- An HTTP error response: status code and detail message. -/
structure HttpError where
  status : Nat
  detail : String
deriving DecidableEq

/-- The filesystem: a list of (path, content) pairs; the most recent
entry for a path shadows older ones. -/
abbrev FileSys := List (String × String)

/-- Content of the file at a path, if it exists. -/
def getFile : FileSys → String → Option String
  | [], _ => none
  | (q, c) :: rest, p => if q = p then some c else getFile rest p

/-- Write a file: the new entry shadows any previous entry for the path,
which models overwriting. -/
def setFile (fs : FileSys) (p c : String) : FileSys := (p, c) :: fs

/-- Response of a successful ingest call. -/
structure IngestResp where
  message : String
  rows : Nat
  currentDataset : String
deriving DecidableEq

/-- Response of a successful upload call. -/
structure UploadResp where
  message : String
  uploadedPath : String
  currentDataset : String
deriving DecidableEq

/-- Path of an upload inside the uploads directory. -/
def uploadsPath (f : String) : String := "uploads/" ++ f

/-- The ingest endpoint: 404 when the path does not exist, before any
write; otherwise copy the file into the current-dataset slot and report
the row count of the copied CSV (rowCount abstracts pd.read_csv plus
len). Returns the response together with the resulting filesystem. -/
def ingest (path : String) (rowCount : String → Nat) (fs : FileSys) :
    Except HttpError IngestResp × FileSys :=
  match getFile fs path with
  | none => (.error ⟨404, "File not found: " ++ path⟩, fs)
  | some content =>
    let fs1 := setFile fs currentDatasetPath content
    (.ok ⟨"Ingestion successful.", rowCount content, currentDatasetPath⟩, fs1)

/-- Python str.lower restricted to character-wise lowering. -/
def lowerStr (s : String) : String := String.mk (s.toList.map Char.toLower)

/-- The extension part of os.path.splitext: the suffix of the basename
from its last dot, unless every character of the basename before that
dot is itself a dot (leading dots do not start an extension). -/
def splitextExt (p : String) : String :=
  let base := (p.toList.reverse.takeWhile (fun c => c ≠ '/')).reverse
  let stripped := base.dropWhile (fun c => c = '.')
  if stripped.contains '.' then
    String.mk ('.' :: (base.reverse.takeWhile (fun c => c ≠ '.')).reverse)
  else ""

/-- The upload endpoint: reject a filename whose lowered extension is not
.csv with a 400 error before any write; otherwise store the file under
the uploads directory and copy it into the current-dataset slot. -/
def upload (filename : String) (content : String) (fs : FileSys) :
    Except HttpError UploadResp × FileSys :=
  let ext := lowerStr (splitextExt filename)
  if ext ≠ ".csv" then
    (.error ⟨400, "Only CSV files are supported for now."⟩, fs)
  else
    let dest := uploadsPath filename
    let fs1 := setFile fs dest content
    let fs2 := setFile fs1 currentDatasetPath content
    (.ok ⟨"File uploaded successfully.", dest, currentDatasetPath⟩, fs2)

/-- Apply the report writes of a pipeline run to a filesystem; the bytes
written are not modelled, only which paths are (over)written. -/
def applyWrites (fs : FileSys) (ws : List String) : FileSys :=
  ws.foldl (fun f w => setFile f w "artifact") fs

/-- Sum of the counts of an aggregate. -/
def sumCounts (l : List (String × Nat)) : Nat := (l.map Prod.snd).sum

/-- First row of the two-row scenario dataset of the spec. -/
def row1 : Row :=
  [("type", some "Movie"), ("listed_in", some "Drama, Comedy"), ("rating", some "PG-13"),
   ("release_year", some "2020"), ("duration", some "90 min")]

/-- Second row of the two-row scenario dataset of the spec. -/
def row2 : Row :=
  [("type", some "TV Show"), ("listed_in", some "Drama"), ("rating", some "TV-MA"),
   ("release_year", some "2021"), ("duration", some "2 Seasons")]

/-- The two-row scenario dataset of the spec. -/
def scenarioDf : DataFrame :=
  ⟨["type", "listed_in", "rating", "release_year", "duration"], [row1, row2]⟩

/-- A one-column dataset with only genres, missing the director column. -/
def genresOnlyDf : DataFrame :=
  ⟨["listed_in"], [[("listed_in", some "Drama")]]⟩

/-- A dataset whose duration text has its digits in the middle, not at
the start. -/
def midDigitsDf : DataFrame :=
  ⟨["duration"], [[("duration", some "min 90")]]⟩

/-- A two-row dataset with one missing rating cell. -/
def missingRatingDf : DataFrame :=
  ⟨["rating"], [[("rating", some "PG")], [("rating", none)]]⟩

/-- The empty dataset. -/
def emptyDf : DataFrame := ⟨[], []⟩

theorem mem_uniqueKeys {α : Type} [DecidableEq α] (l : List α) (v : α) :
    v ∈ uniqueKeys l ↔ v ∈ l := by
  induction l with
  | nil => simp [uniqueKeys]
  | cons a as ih =>
    by_cases h : v = a
    · subst h; simp [uniqueKeys]
    · simp [uniqueKeys, List.mem_filter, h, ih]

theorem mem_countOccs {α : Type} [DecidableEq α] (l : List α) (v : α) (n : Nat) :
    (v, n) ∈ countOccs l ↔ v ∈ l ∧ n = countEq l v := by
  simp only [countOccs, List.mem_map, Prod.mk.injEq]
  constructor
  · rintro ⟨u, hu, rfl, rfl⟩
    exact ⟨(mem_uniqueKeys l u).mp hu, rfl⟩
  · rintro ⟨hv, rfl⟩
    exact ⟨v, (mem_uniqueKeys l v).mpr hv, rfl, rfl⟩

theorem mem_valueCounts {α : Type} [DecidableEq α] (l : List α) (v : α) (n : Nat) :
    (v, n) ∈ valueCounts l ↔ v ∈ l ∧ n = countEq l v := by
  rw [valueCounts]
  rw [List.mem_insertionSort]
  exact mem_countOccs l v n

theorem sorted_valueCounts {α : Type} [DecidableEq α] (l : List α) :
    List.Sorted (@cntGe α) (valueCounts l) :=
  List.sorted_insertionSort (@cntGe α) (countOccs l)

theorem mem_map_fst_ite (c : Prop) [Decidable c] (a b k : String) :
    (k ∈ ((if c then [(a, b)] else []) : List (String × String)).map Prod.fst) ↔ (c ∧ k = a) := by
  by_cases h : c <;> simp [h]

theorem mem_map_snd_ite (c : Prop) [Decidable c] (a b w : String) :
    (w ∈ ((if c then [(a, b)] else []) : List (String × String)).map Prod.snd) ↔ (c ∧ w = b) := by
  by_cases h : c <;> simp [h]

theorem mem_keys_plot_files (d : DataFrame) (k : String) :
    k ∈ (plot_files d).map Prod.fst ↔
      ((("listed_in" ∈ d.cols ∧ top_genres d ≠ []) ∧ k = "top_genres") ∨
       (("director" ∈ d.cols ∧ top_directors d ≠ []) ∧ k = "top_directors") ∨
       (("rating" ∈ d.cols ∧ rating_counts d ≠ []) ∧ k = "rating_distribution") ∨
       (("release_year" ∈ d.cols ∧ per_year d ≠ []) ∧ k = "titles_per_year") ∨
       (("type" ∈ d.cols ∧ type_counts d ≠ []) ∧ k = "type_count") ∨
       (("type" ∈ d.cols ∧ avg_duration d ≠ []) ∧ k = "avg_movie_duration")) := by
  simp only [plot_files, List.map_append, List.mem_append, mem_map_fst_ite, or_assoc]

theorem mem_snd_plot_files (d : DataFrame) (w : String) :
    w ∈ (plot_files d).map Prod.snd ↔
      ((("listed_in" ∈ d.cols ∧ top_genres d ≠ []) ∧ w = reportsPath "top_genres.png") ∨
       (("director" ∈ d.cols ∧ top_directors d ≠ []) ∧ w = reportsPath "top_directors.png") ∨
       (("rating" ∈ d.cols ∧ rating_counts d ≠ []) ∧ w = reportsPath "rating_distribution.png") ∨
       (("release_year" ∈ d.cols ∧ per_year d ≠ []) ∧ w = reportsPath "titles_per_year.png") ∨
       (("type" ∈ d.cols ∧ type_counts d ≠ []) ∧ w = reportsPath "type_count.png") ∨
       (("type" ∈ d.cols ∧ avg_duration d ≠ []) ∧ w = reportsPath "avg_movie_duration.png")) := by
  simp only [plot_files, List.map_append, List.mem_append, mem_map_snd_ite, or_assoc]

theorem plots_run_report_core (path : String) (df : DataFrame) (ai : Option String) (g : Bool) :
    (run_report_core path df ai g).1.plots = plot_files (stripCols df) := by
  cases g <;> rfl

theorem writes_run_report_core (path : String) (df : DataFrame) (ai : Option String) (g : Bool) :
    (run_report_core path df ai g).2 =
      (plot_files (stripCols df)).map Prod.snd ++
        (if g = true then [pdf_path, ppt_path] else []) := by
  cases g <;> simp [run_report_core]

theorem takeWhile_all_append (p : Char → Bool) (l₂ l₃ : List Char)
    (h₂ : ∀ c ∈ l₂, p c = true) (h₃ : ∀ c, l₃.head? = some c → p c = false) :
    (l₂ ++ l₃).takeWhile p = l₂ := by
  induction l₂ with
  | nil =>
    cases l₃ with
    | nil => rfl
    | cons c cs => simp [List.takeWhile_cons, h₃ c rfl]
  | cons a as ih =>
    have ha := h₂ a (List.mem_cons_self a as)
    simp only [List.cons_append, List.takeWhile_cons, ha, if_true]
    rw [ih (fun c hc => h₂ c (List.mem_cons_of_mem _ hc))]

theorem head_dropWhile_false (p : Char → Bool) :
    ∀ (l : List Char) (c : Char), (l.dropWhile p).head? = some c → p c = false := by
  intro l
  induction l with
  | nil => intro c h; simp [List.dropWhile] at h
  | cons a as ih =>
    intro c h
    rw [List.dropWhile_cons] at h
    by_cases hpa : p a = true
    · rw [if_pos hpa] at h; exact ih c h
    · rw [if_neg hpa] at h
      simp only [List.head?_cons, Option.some.injEq] at h
      subst h
      exact Bool.eq_false_iff.mpr hpa

theorem firstDigitRun_eq_none_iff (l : List Char) :
    firstDigitRun l = none ↔ ∀ c ∈ l, c.isDigit = false := by
  induction l with
  | nil => simp [firstDigitRun]
  | cons a as ih =>
    by_cases h : a.isDigit = true
    · simp [firstDigitRun, h]
    · have hf : a.isDigit = false := Bool.eq_false_iff.mpr h
      simp [firstDigitRun, hf, ih]

theorem firstDigitRun_of_decomp (l₁ l₂ l₃ : List Char)
    (h₁ : ∀ c ∈ l₁, c.isDigit = false) (h₂ : l₂ ≠ []) (h₂d : ∀ c ∈ l₂, c.isDigit = true)
    (h₃ : ∀ c, l₃.head? = some c → c.isDigit = false) :
    firstDigitRun (l₁ ++ l₂ ++ l₃) = some l₂ := by
  induction l₁ with
  | nil =>
    cases l₂ with
    | nil => exact absurd rfl h₂
    | cons d ds =>
      have hd := h₂d d (List.mem_cons_self d ds)
      have ht : ((d :: ds) ++ l₃).takeWhile Char.isDigit = d :: ds :=
        takeWhile_all_append Char.isDigit (d :: ds) l₃ h₂d h₃
      rw [List.nil_append, List.cons_append]
      rw [List.cons_append] at ht
      show (if d.isDigit then some ((d :: (ds ++ l₃)).takeWhile Char.isDigit)
        else firstDigitRun (ds ++ l₃)) = some (d :: ds)
      rw [if_pos hd, ht]
  | cons a as ih =>
    have ha := h₁ a (List.mem_cons_self a as)
    simp only [List.cons_append, firstDigitRun, ha, Bool.false_eq_true, if_false]
    exact ih (fun c hc => h₁ c (List.mem_cons_of_mem _ hc))

theorem firstDigitRun_decomp (l r : List Char) (h : firstDigitRun l = some r) :
    ∃ l₁ l₃, l = l₁ ++ r ++ l₃ ∧ (∀ c ∈ l₁, c.isDigit = false) ∧ r ≠ [] ∧
      (∀ c ∈ r, c.isDigit = true) ∧ (∀ c, l₃.head? = some c → c.isDigit = false) := by
  induction l with
  | nil => simp [firstDigitRun] at h
  | cons a as ih =>
    by_cases hc : a.isDigit = true
    · rw [firstDigitRun, if_pos hc] at h
      have hr : (a :: as).takeWhile Char.isDigit = r := Option.some.inj h
      refine ⟨[], (a :: as).dropWhile Char.isDigit, ?_, by simp, ?_, ?_, ?_⟩
      · rw [List.nil_append, ← hr, List.takeWhile_append_dropWhile]
      · rw [← hr]; simp [List.takeWhile_cons, hc]
      · intro x hx; rw [← hr] at hx; exact List.mem_takeWhile_imp hx
      · exact fun c hcc => head_dropWhile_false Char.isDigit (a :: as) c hcc
    · have hf : a.isDigit = false := Bool.eq_false_iff.mpr hc
      rw [firstDigitRun, if_neg hc] at h
      obtain ⟨l₁, l₃, heq, hh1, hh2, hh3, hh4⟩ := ih h
      refine ⟨a :: l₁, l₃, by simp [heq], ?_, hh2, hh3, hh4⟩
      intro c hcc
      rcases List.mem_cons.mp hcc with hx | hx
      · subst hx; exact hf
      · exact hh1 c hx

theorem extractFirstNat_eq_none_iff (s : String) :
    extractFirstNat s = none ↔ ∀ c ∈ s.toList, c.isDigit = false := by
  constructor
  · intro h
    have hn : firstDigitRun s.toList = none := by
      cases hfd : firstDigitRun s.toList with
      | none => rfl
      | some r => rw [extractFirstNat, hfd] at h; exact absurd h (by simp)
    exact (firstDigitRun_eq_none_iff s.toList).mp hn
  · intro h
    rw [extractFirstNat, (firstDigitRun_eq_none_iff s.toList).mpr h]
    rfl

theorem extractFirstNat_eq_some_iff (s : String) (n : Nat) :
    extractFirstNat s = some n ↔
      ∃ l₁ l₂ l₃, s.toList = l₁ ++ l₂ ++ l₃ ∧ (∀ c ∈ l₁, c.isDigit = false) ∧ l₂ ≠ [] ∧
        (∀ c ∈ l₂, c.isDigit = true) ∧ (∀ c, l₃.head? = some c → c.isDigit = false) ∧
        n = digitsVal l₂ := by
  constructor
  · intro h
    rw [extractFirstNat] at h
    cases hfd : firstDigitRun s.toList with
    | none => rw [hfd] at h; exact absurd h (by simp)
    | some r =>
      rw [hfd] at h
      have hn : digitsVal r = n := Option.some.inj h
      obtain ⟨l₁, l₃, heq, hh1, hh2, hh3, hh4⟩ := firstDigitRun_decomp s.toList r hfd
      exact ⟨l₁, r, l₃, heq, hh1, hh2, hh3, hh4, hn.symm⟩
  · rintro ⟨l₁, l₂, l₃, heq, hh1, hh2, hh3, hh4, rfl⟩
    rw [extractFirstNat, heq, firstDigitRun_of_decomp l₁ l₂ l₃ hh1 hh2 hh3 hh4]
    rfl

theorem getFile_setFile_ne (fs : FileSys) (w c p : String) (h : w ≠ p) :
    getFile (setFile fs w c) p = getFile fs p := by
  simp [setFile, getFile, h]

theorem getFile_applyWrites (ws : List String) :
    ∀ (fs : FileSys) (p : String), p ∉ ws →
      getFile (applyWrites fs ws) p = getFile fs p := by
  induction ws with
  | nil => intro fs p _; rfl
  | cons w ws ih =>
    intro fs p hp
    have hpw : w ≠ p := fun h => hp (h ▸ List.mem_cons_self w ws)
    have hpws : p ∉ ws := fun h => hp (List.mem_cons_of_mem _ h)
    rw [applyWrites, List.foldl_cons]
    rw [show (List.foldl (fun f w => setFile f w "artifact") (setFile fs w "artifact") ws) =
      applyWrites (setFile fs w "artifact") ws from rfl]
    rw [ih (setFile fs w "artifact") p hpws]
    exact getFile_setFile_ne fs w "artifact" p hpw

theorem pdf_not_in_chart_writes (d : DataFrame) : pdf_path ∉ (plot_files d).map Prod.snd := by
  intro hmem
  rw [mem_snd_plot_files] at hmem
  simp +decide [pdf_path, reportsPath] at hmem

theorem ppt_not_in_chart_writes (d : DataFrame) : ppt_path ∉ (plot_files d).map Prod.snd := by
  intro hmem
  rw [mem_snd_plot_files] at hmem
  simp +decide [ppt_path, reportsPath] at hmem

/-- C1: for every input dataset, each of the six aggregates appears in the
plots mapping of the pipeline, and has its chart artifact written, exactly
when its source column is present (after column-name cleaning) and its
aggregate is non-empty; in particular a missing or empty aggregate is
skipped, writes no chart, and its key is absent. The pipeline itself is a
total function, so it never fails on a missing column. -/
theorem claim_C1_missing_column_skips (df : DataFrame) (path : String) (ai : Option String)
    (g : Bool) :
    (("top_genres" ∈ (run_report_core path df ai g).1.plots.map Prod.fst ↔
        "listed_in" ∈ (stripCols df).cols ∧ top_genres (stripCols df) ≠ []) ∧
     ("top_directors" ∈ (run_report_core path df ai g).1.plots.map Prod.fst ↔
        "director" ∈ (stripCols df).cols ∧ top_directors (stripCols df) ≠ []) ∧
     ("rating_distribution" ∈ (run_report_core path df ai g).1.plots.map Prod.fst ↔
        "rating" ∈ (stripCols df).cols ∧ rating_counts (stripCols df) ≠ []) ∧
     ("titles_per_year" ∈ (run_report_core path df ai g).1.plots.map Prod.fst ↔
        "release_year" ∈ (stripCols df).cols ∧ per_year (stripCols df) ≠ []) ∧
     ("type_count" ∈ (run_report_core path df ai g).1.plots.map Prod.fst ↔
        "type" ∈ (stripCols df).cols ∧ type_counts (stripCols df) ≠ []) ∧
     ("avg_movie_duration" ∈ (run_report_core path df ai g).1.plots.map Prod.fst ↔
        "type" ∈ (stripCols df).cols ∧ avg_duration (stripCols df) ≠ [])) ∧
    ((reportsPath "top_genres.png" ∈ (run_report_core path df ai g).2 ↔
        "listed_in" ∈ (stripCols df).cols ∧ top_genres (stripCols df) ≠ []) ∧
     (reportsPath "top_directors.png" ∈ (run_report_core path df ai g).2 ↔
        "director" ∈ (stripCols df).cols ∧ top_directors (stripCols df) ≠ []) ∧
     (reportsPath "rating_distribution.png" ∈ (run_report_core path df ai g).2 ↔
        "rating" ∈ (stripCols df).cols ∧ rating_counts (stripCols df) ≠ []) ∧
     (reportsPath "titles_per_year.png" ∈ (run_report_core path df ai g).2 ↔
        "release_year" ∈ (stripCols df).cols ∧ per_year (stripCols df) ≠ []) ∧
     (reportsPath "type_count.png" ∈ (run_report_core path df ai g).2 ↔
        "type" ∈ (stripCols df).cols ∧ type_counts (stripCols df) ≠ []) ∧
     (reportsPath "avg_movie_duration.png" ∈ (run_report_core path df ai g).2 ↔
        "type" ∈ (stripCols df).cols ∧ avg_duration (stripCols df) ≠ [])) := by
  rw [plots_run_report_core, writes_run_report_core]
  cases g <;>
    refine ⟨⟨?_, ?_, ?_, ?_, ?_, ?_⟩, ⟨?_, ?_, ?_, ?_, ?_, ?_⟩⟩ <;>
    first
    | (rw [mem_keys_plot_files]; simp +decide)
    | (rw [List.mem_append, mem_snd_plot_files]
       simp +decide [reportsPath, pdf_path, ppt_path])

/-- Witness for C1: the one-column genres dataset yields the top-genres
chart key and no top-directors chart key. -/
theorem claim_C1_witness :
    "top_genres" ∈ (run_report_core "p" genresOnlyDf none false).1.plots.map Prod.fst ∧
    "top_directors" ∉ (run_report_core "p" genresOnlyDf none false).1.plots.map Prod.fst := by
  have h := claim_C1_missing_column_skips genresOnlyDf "p" none false
  refine ⟨h.1.1.mpr (by decide), fun hm => absurd (h.1.2.1.mp hm) (by decide)⟩

/-- C2: on the two-row scenario dataset of the spec, the genre aggregate
counts Drama twice and Comedy once, the type aggregate counts one Movie
and one TV Show, and the average duration is 90 for Movie and 2 for
TV Show. -/
theorem claim_C2_two_row_scenario :
    top_genres scenarioDf = [("Drama", 2), ("Comedy", 1)] ∧
    type_counts scenarioDf = [("Movie", 1), ("TV Show", 1)] ∧
    avg_duration scenarioDf = [("Movie", (90 : Rat)), ("TV Show", (2 : Rat))] := by
  refine ⟨by decide, by decide, ?_⟩
  simp [avg_duration, scenarioDf, row1, row2, durationNum, extractFirstNat, pyStr, cellVal,
    firstDigitRun, digitsVal, uniqueKeys]

/-- C3: the top-genres and top-directors aggregates have at most ten
entries and are ordered by non-increasing count. -/
theorem claim_C3_topN_bounded_sorted (df : DataFrame) :
    (top_genres df).length ≤ 10 ∧ List.Sorted (@cntGe String) (top_genres df) ∧
    (top_directors df).length ≤ 10 ∧ List.Sorted (@cntGe String) (top_directors df) := by
  refine ⟨?_, ?_, ?_, ?_⟩
  · unfold top_genres
    split
    · exact List.length_take_le 10 _
    · simp
  · unfold top_genres
    split
    · exact List.Pairwise.sublist (List.take_sublist 10 _) (sorted_valueCounts _)
    · simp
  · unfold top_directors
    split
    · exact List.length_take_le 10 _
    · simp
  · unfold top_directors
    split
    · exact List.Pairwise.sublist (List.take_sublist 10 _) (sorted_valueCounts _)
    · simp

/-- Witness for C3 at the scenario dataset. -/
theorem claim_C3_witness : (top_genres scenarioDf).length ≤ 10 :=
  (claim_C3_topN_bounded_sorted scenarioDf).1

/-- C4 counterexample: with an explicit path that does not exist while the
current dataset file exists, the resolution order of the claim picks the
current dataset (which exists), so the claim predicts success; the code
instead fails with the not-found error on the explicit path, because an
explicit path is used without any existence check or fallback. -/
theorem claim_C4_counterexample :
    resolveCsvSpec (some "missing.csv") [currentDatasetPath] = currentDatasetPath ∧
    currentDatasetPath ∈ [currentDatasetPath] ∧
    run_report (some "missing.csv") [currentDatasetPath] (fun _ => emptyDf) none true =
      .error ("CSV file not found: missing.csv") := by
  refine ⟨by decide, by decide, ?_⟩
  rfl

/-- C4 (amended): an explicit path is used as given, whether or not it
exists (no fallback); with no explicit path the current dataset is used
when that file exists and the bundled default otherwise; the pipeline
fails with the not-found error exactly when the resolved path does not
exist. -/
theorem claim_C4_resolution_amended (src : Option String) (ex : List String)
    (load : String → DataFrame) (ai : Option String) (g : Bool) :
    ((run_report src ex load ai g).isOk = true ↔ resolveCsv src ex ∈ ex) ∧
    (resolveCsv src ex ∈ ex ∨
      run_report src ex load ai g = .error ("CSV file not found: " ++ resolveCsv src ex)) ∧
    resolveCsv src ex = (match src with
      | some p => p
      | none => if currentDatasetPath ∈ ex then currentDatasetPath else defaultDatasetPath) := by
  refine ⟨?_, ?_, ?_⟩
  · by_cases h : resolveCsv src ex ∈ ex <;> simp [run_report, h, Except.isOk, Except.toBool]
  · by_cases h : resolveCsv src ex ∈ ex
    · exact Or.inl h
    · exact Or.inr (by simp [run_report, h])
  · cases src <;> rfl

/-- Witness for C4: with no explicit path and only the bundled default
present, the pipeline succeeds. -/
theorem claim_C4_witness :
    (run_report none [defaultDatasetPath] (fun _ => emptyDf) none true).isOk = true :=
  (claim_C4_resolution_amended none [defaultDatasetPath] (fun _ => emptyDf) none true).1.mpr
    (by decide)

/-- C5 counterexample: for the duration text with its digits in the middle
the code extracts 90, while the leading integer of that text (as the
claim states it) does not exist, so the derived value would have to be
missing. -/
theorem claim_C5_counterexample :
    durationNum midDigitsDf [("duration", some "min 90")] = some 90 ∧
    leadingNatSpec "min 90" = none := by
  decide

/-- C5 (amended): when a duration column exists the derived numeric
duration equals the value of the first maximal run of digits appearing
anywhere in the text representation (so 90 min gives 90, but min 90 also
gives 90); a text with no digit at all (including the printed form of a
missing cell) yields a missing value; an absent duration column yields an
all-missing derived column. -/
theorem claim_C5_duration_amended (df : DataFrame) (r : Row) :
    durationNum df r =
      (if "duration" ∈ df.cols then extractFirstNat (pyStr (cellVal r "duration")) else none) ∧
    (∀ s : String, (extractFirstNat s = none ↔ ∀ c ∈ s.toList, c.isDigit = false)) ∧
    (∀ (s : String) (n : Nat), (extractFirstNat s = some n ↔
      ∃ l₁ l₂ l₃, s.toList = l₁ ++ l₂ ++ l₃ ∧ (∀ c ∈ l₁, c.isDigit = false) ∧ l₂ ≠ [] ∧
        (∀ c ∈ l₂, c.isDigit = true) ∧ (∀ c, l₃.head? = some c → c.isDigit = false) ∧
        n = digitsVal l₂)) :=
  ⟨rfl, extractFirstNat_eq_none_iff, extractFirstNat_eq_some_iff⟩

/-- Witness for C5 on the scenario dataset: the duration 90 min is
decomposed as the digit run 9, 0 followed by a space, giving 90. -/
theorem claim_C5_witness :
    extractFirstNat "90 min" = some 90 ∧ durationNum scenarioDf row1 = some 90 := by
  have h := claim_C5_duration_amended scenarioDf row1
  refine ⟨(h.2.2 "90 min" 90).mpr
    ⟨[], ['9', '0'], [' ', 'm', 'i', 'n'], by decide, by decide, by decide, by decide,
      by decide, by decide⟩, ?_⟩
  rw [h.1]
  decide

/-- C6: when the narrative stage fails (no client or any error of the
call, both modelled by a none outcome) the pipeline still completes with
an empty narrative, and the plots mapping, the report writes and the two
document paths are the same as with a successful narrative. -/
theorem claim_C6_ai_failure_degrades (path : String) (df : DataFrame) (s : String) (g : Bool) :
    (run_report_core path df none g).1.aiSummary = "" ∧
    (run_report_core path df none g).1.plots = (run_report_core path df (some s) g).1.plots ∧
    (run_report_core path df none g).1.pdfFile = (run_report_core path df (some s) g).1.pdfFile ∧
    (run_report_core path df none g).1.pptFile = (run_report_core path df (some s) g).1.pptFile ∧
    (run_report_core path df none g).2 = (run_report_core path df (some s) g).2 := by
  cases g <;> exact ⟨rfl, rfl, rfl, rfl, rfl⟩

/-- Witness for C6 at the scenario dataset with document generation on. -/
theorem claim_C6_witness : (run_report_core "p" scenarioDf none true).1.aiSummary = "" :=
  (claim_C6_ai_failure_degrades "p" scenarioDf "a summary" true).1

/-- C7: ingesting a path that does not exist returns the 404 not-found
error and returns the filesystem unchanged: no write at all, in
particular none to the current-dataset slot. -/
theorem claim_C7_ingest_missing_path (path : String) (rowCount : String → Nat) (fs : FileSys)
    (h : getFile fs path = none) :
    ingest path rowCount fs = (.error ⟨404, "File not found: " ++ path⟩, fs) := by
  unfold ingest
  rw [h]

/-- Witness for C7 on the empty filesystem. -/
theorem claim_C7_witness :
    ingest "missing.csv" (fun _ => 0) [] =
      (.error ⟨404, "File not found: missing.csv"⟩, []) :=
  claim_C7_ingest_missing_path "missing.csv" (fun _ => 0) [] rfl

/-- C8: uploading a file whose lowered extension is not .csv is rejected
with the 400 error and the filesystem is returned unchanged: neither the
uploads directory nor the current-dataset slot is written. -/
theorem claim_C8_upload_rejects_non_csv (filename content : String) (fs : FileSys)
    (h : lowerStr (splitextExt filename) ≠ ".csv") :
    upload filename content fs = (.error ⟨400, "Only CSV files are supported for now."⟩, fs) := by
  simp [upload, h]

/-- Witness for C8 with a txt upload. -/
theorem claim_C8_witness :
    upload "data.txt" "x" [] = (.error ⟨400, "Only CSV files are supported for now."⟩, []) :=
  claim_C8_upload_rejects_non_csv "data.txt" "x" [] (by decide)

/-- C9 counterexample: on a two-row dataset with one missing rating the
aggregate counts only the one non-missing value, so the counts sum to 1
and not to the row count 2: rows with a missing rating are not counted,
contrary to the claim. -/
theorem claim_C9_counterexample :
    rating_counts missingRatingDf = [("PG", 1)] ∧
    missingRatingDf.rows.length = 2 ∧
    sumCounts (rating_counts missingRatingDf) = 1 := by
  decide

/-- C9 (amended): the ratings-distribution aggregate counts all
non-missing values of the rating column (rows with a missing rating are
dropped by the counting), ordered by descending frequency. -/
theorem claim_C9_rating_counts_amended (df : DataFrame) :
    List.Sorted (@cntGe String) (rating_counts df) ∧
    (∀ (v : String) (n : Nat),
      ((v, n) ∈ rating_counts df ↔ v ∈ ratingVals df ∧ n = countEq (ratingVals df) v)) :=
  ⟨sorted_valueCounts _, fun v n => mem_valueCounts _ v n⟩

/-- Witness for C9: the PG count of the two-row dataset is one. -/
theorem claim_C9_witness : ("PG", 1) ∈ rating_counts missingRatingDf :=
  ((claim_C9_rating_counts_amended missingRatingDf).2 "PG" 1).mpr (by decide)

/-- C10: when the pipeline runs through the analyze path (document
generation disabled) the bundle has no PDF path and no slide-deck path,
the written report files include neither document path, and applying the
writes to any reports filesystem leaves both document files exactly as
they were. -/
theorem claim_C10_analyze_no_documents (src : Option String) (ex : List String)
    (load : String → DataFrame) (ai : Option String) (b : Bundle) (w : List String)
    (h : analyze src ex load ai = .ok (b, w)) :
    b.pdfFile = none ∧ b.pptFile = none ∧ pdf_path ∉ w ∧ ppt_path ∉ w ∧
    (∀ fs : FileSys, getFile (applyWrites fs w) pdf_path = getFile fs pdf_path ∧
      getFile (applyWrites fs w) ppt_path = getFile fs ppt_path) := by
  simp only [analyze, run_report] at h
  split at h
  · injection h with h2
    have hb : b = (run_report_core (resolveCsv src ex) (load (resolveCsv src ex)) ai false).1 := by
      rw [h2]
    have hw : w = (run_report_core (resolveCsv src ex) (load (resolveCsv src ex)) ai false).2 := by
      rw [h2]
    subst hb
    subst hw
    have hwpdf :
        pdf_path ∉ (run_report_core (resolveCsv src ex) (load (resolveCsv src ex)) ai false).2 := by
      rw [writes_run_report_core]
      intro hmem2
      rcases List.mem_append.mp hmem2 with h4 | h4
      · exact pdf_not_in_chart_writes _ h4
      · simp at h4
    have hwppt :
        ppt_path ∉ (run_report_core (resolveCsv src ex) (load (resolveCsv src ex)) ai false).2 := by
      rw [writes_run_report_core]
      intro hmem2
      rcases List.mem_append.mp hmem2 with h4 | h4
      · exact ppt_not_in_chart_writes _ h4
      · simp at h4
    refine ⟨rfl, rfl, hwpdf, hwppt, fun fs => ?_⟩
    exact ⟨getFile_applyWrites _ fs pdf_path hwpdf, getFile_applyWrites _ fs ppt_path hwppt⟩
  · simp at h

/-- Witness for C10 at the scenario dataset. -/
theorem claim_C10_witness :
    (run_report_core "a.csv" scenarioDf none false).1.pdfFile = none ∧
    (run_report_core "a.csv" scenarioDf none false).1.pptFile = none := by
  have h := claim_C10_analyze_no_documents (some "a.csv") ["a.csv"] (fun _ => scenarioDf) none
    (run_report_core "a.csv" scenarioDf none false).1
    (run_report_core "a.csv" scenarioDf none false).2 rfl
  exact ⟨h.1, h.2.1⟩

end InsightEngine
